import Mathlib

set_option linter.unusedVariables false

/-!
Verification of the stub PortAudio backend in
src/Sources/CPortAudio/stub_implementation.c.

The stub is a flat set of C entry points with no mutable global state:
every function returns a precomputed result, except Pa_OpenStream, which
rejects callback mode and otherwise stores a sentinel handle through its
output pointer.

Embedding conventions:
- C pointers are addresses of type Nat; address 0 plays the role of NULL.
- Caller-visible memory is a map from addresses to stored values, wrapped
  in a `World`; functions thread the world explicitly.
- Pa_OpenStream may dereference its output pointer; a dereference of NULL
  is undefined behavior, modelled as `Except.error ()`, while every
  defined outcome is `Except.ok (returnCode, world)`.
- The error-code constants come from the vendored portaudio header, which
  is outside the stub source; they are modelled below from the spec.
-/

/-- Modelled from the spec: the success code `paNoError` is defined by the
vendored portaudio.h header, which is not part of the stub source. The
spec calls it the "no error" success code; its conventional value is 0. -/
def paNoError : Int := 0

/-- Modelled from the spec: the "internal error" code `paInternalError`
from the vendored portaudio.h header, used solely for the
unsupported-callback case; its conventional value is -9986, and the spec
only requires it to be a failure code distinct from `paNoError`. -/
def paInternalError : Int := -9986

/-- Caller-visible memory: a map from addresses to stored values.
The stub itself has no mutable globals, so the world carries only the
caller memory that Pa_OpenStream can write through its output pointer. -/
structure World where
  mem : Nat → Nat

def Pa_Initialize (w : World) : Int × World := (paNoError, w)

def Pa_Terminate (w : World) : Int × World := (paNoError, w)

def Pa_GetVersion (w : World) : Int × World := (19070000, w)

def Pa_GetDeviceCount (w : World) : Int × World := (2, w)

def Pa_GetDefaultInputDevice (w : World) : Int × World := (0, w)

def Pa_GetDefaultOutputDevice (w : World) : Int × World := (1, w)

/-- The PaDeviceInfo record, with the latency and sample-rate doubles
modelled as exact rationals. -/
structure PaDeviceInfo where
  structVersion : Int
  name : String
  hostApi : Int
  maxInputChannels : Int
  maxOutputChannels : Int
  defaultLowInputLatency : Rat
  defaultLowOutputLatency : Rat
  defaultHighInputLatency : Rat
  defaultHighOutputLatency : Rat
  defaultSampleRate : Rat
deriving DecidableEq, Repr

/-- The static `inputDevice` descriptor in Pa_GetDeviceInfo. -/
def inputDevice : PaDeviceInfo :=
  { structVersion := 2
  , name := "Default Input Device"
  , hostApi := 0
  , maxInputChannels := 2
  , maxOutputChannels := 0
  , defaultLowInputLatency := 1/100
  , defaultLowOutputLatency := 0
  , defaultHighInputLatency := 1/10
  , defaultHighOutputLatency := 0
  , defaultSampleRate := 44100 }

/-- The static `outputDevice` descriptor in Pa_GetDeviceInfo. -/
def outputDevice : PaDeviceInfo :=
  { structVersion := 2
  , name := "Default Output Device"
  , hostApi := 0
  , maxInputChannels := 0
  , maxOutputChannels := 2
  , defaultLowInputLatency := 0
  , defaultLowOutputLatency := 1/100
  , defaultHighInputLatency := 0
  , defaultHighOutputLatency := 1/10
  , defaultSampleRate := 44100 }

/-- Pa_GetDeviceInfo: returns the static input descriptor for index 0,
the static output descriptor for index 1, and NULL (none) otherwise. -/
def Pa_GetDeviceInfo (w : World) (device : Int) : Option PaDeviceInfo × World :=
  if device = 0 then (some inputDevice, w)
  else if device = 1 then (some outputDevice, w)
  else (none, w)

/-- Pa_OpenStream: if streamCallback is non-NULL, returns paInternalError
without touching memory; otherwise stores the sentinel handle 1 through
the `stream` output pointer (undefined behavior when that pointer is
NULL, since the C code performs the store with no null check) and
returns paNoError. All other parameters are ignored. -/
def Pa_OpenStream (w : World) (stream : Nat)
    (inputParameters outputParameters : Nat) (sampleRate : Rat)
    (framesPerBuffer : Nat) (streamFlags : Nat)
    (streamCallback : Nat) (userData : Nat) : Except Unit (Int × World) :=
  if streamCallback ≠ 0 then
    Except.ok (paInternalError, w)
  else if stream = 0 then
    Except.error ()
  else
    Except.ok (paNoError, { w with mem := fun a => if a = stream then 1 else w.mem a })

def Pa_CloseStream (w : World) (stream : Nat) : Int × World := (paNoError, w)

def Pa_StartStream (w : World) (stream : Nat) : Int × World := (paNoError, w)

def Pa_StopStream (w : World) (stream : Nat) : Int × World := (paNoError, w)

def Pa_AbortStream (w : World) (stream : Nat) : Int × World := (paNoError, w)

def Pa_IsStreamStopped (w : World) (stream : Nat) : Int × World := (1, w)

def Pa_IsStreamActive (w : World) (stream : Nat) : Int × World := (0, w)

/-- Pa_ReadStream: returns paNoError and touches no memory at all, so the
supplied buffer is left unchanged. -/
def Pa_ReadStream (w : World) (stream buffer : Nat) (frames : Nat) : Int × World :=
  (paNoError, w)

/-- Pa_WriteStream: returns paNoError and touches no memory at all, so
the supplied buffer is left unchanged. -/
def Pa_WriteStream (w : World) (stream buffer : Nat) (frames : Nat) : Int × World :=
  (paNoError, w)

/-- One call of the stub API, with its arguments, for phrasing
history-independence over arbitrary call sequences. -/
inductive PaCall where
  | init
  | term
  | getVersion
  | getDeviceCount
  | getDefaultInputDevice
  | getDefaultOutputDevice
  | getDeviceInfo (device : Int)
  | openStream (stream inP outP : Nat) (sampleRate : Rat)
      (framesPerBuffer streamFlags streamCallback userData : Nat)
  | closeStream (stream : Nat)
  | startStream (stream : Nat)
  | stopStream (stream : Nat)
  | abortStream (stream : Nat)
  | isStreamStopped (stream : Nat)
  | isStreamActive (stream : Nat)
  | readStream (stream buffer frames : Nat)
  | writeStream (stream buffer frames : Nat)

/-- Execute one call, keeping only its effect on the world. A call whose
outcome is undefined behavior is taken to leave the world unchanged. -/
def runCall (w : World) : PaCall → World
  | .init => ( Pa_Initialize w).2
  | .term => ( Pa_Terminate w).2
  | .getVersion => ( Pa_GetVersion w).2
  | .getDeviceCount => ( Pa_GetDeviceCount w).2
  | .getDefaultInputDevice => ( Pa_GetDefaultInputDevice w).2
  | .getDefaultOutputDevice => ( Pa_GetDefaultOutputDevice w).2
  | .getDeviceInfo d => ( Pa_GetDeviceInfo w d).2
  | .openStream s i o sr f fl cb ud =>
      match Pa_OpenStream w s i o sr f fl cb ud with
      | Except.ok r => r.2
      | Except.error _ => w
  | .closeStream s => ( Pa_CloseStream w s).2
  | .startStream s => ( Pa_StartStream w s).2
  | .stopStream s => ( Pa_StopStream w s).2
  | .abortStream s => ( Pa_AbortStream w s).2
  | .isStreamStopped s => ( Pa_IsStreamStopped w s).2
  | .isStreamActive s => ( Pa_IsStreamActive w s).2
  | .readStream s b f => ( Pa_ReadStream w s b f).2
  | .writeStream s b f => ( Pa_WriteStream w s b f).2

/-- Execute a sequence of calls from a starting world. -/
def runTrace (w : World) (calls : List PaCall) : World :=
  calls.foldl runCall w

/-- One round of Initialize immediately followed by Terminate, repeated n
times; collects the return code of every individual call in order. -/
def repInitTerm : Nat → World → List (Int × Int) × World
  | 0, w => ([], w)
  | Nat.succ n, w =>
      let r1 := Pa_Initialize w
      let r2 := Pa_Terminate r1.2
      let rest := repInitTerm n r2.2
      ((r1.1, r2.1) :: rest.1, rest.2)

/-- C1: Pa_OpenStream with a non-null streamCallback returns
paInternalError for every combination of the other arguments, leaves the
world untouched, and never returns the success code. -/
theorem c1_openStream_callback_rejected
    (w : World) (stream inP outP : Nat) (sr : Rat) (fpb fl cb ud : Nat)
    (hcb : cb ≠ 0) :
    Pa_OpenStream w stream inP outP sr fpb fl cb ud
        = Except.ok (paInternalError, w)
      ∧ paInternalError ≠ paNoError := by
  refine ⟨?_, by decide⟩
  simp [ Pa_OpenStream, hcb]

theorem c1_witness :
    (3 : Nat) ≠ 0
      ∧ ( Pa_OpenStream ⟨fun _ => 7⟩ 5 0 0 44100 256 0 3 0
            = Except.ok (paInternalError, ⟨fun _ => 7⟩)
          ∧ paInternalError ≠ paNoError) :=
  ⟨by decide, c1_openStream_callback_rejected ⟨fun _ => 7⟩ 5 0 0 44100 256 0 3 0 (by decide)⟩

/-- C2: Pa_OpenStream with a null streamCallback (and a valid, non-null
stream output pointer, the implicit C precondition) returns paNoError,
stores the non-null sentinel handle 1 through the output pointer, leaves
all other memory unchanged, and its result does not depend on any of the
other parameters. -/
theorem c2_openStream_null_callback_succeeds
    (w : World) (stream inP outP : Nat) (sr : Rat) (fpb fl ud : Nat)
    (inP2 outP2 : Nat) (sr2 : Rat) (fpb2 fl2 ud2 : Nat)
    (hstream : stream ≠ 0) :
    (∃ w2 : World,
        Pa_OpenStream w stream inP outP sr fpb fl 0 ud
            = Except.ok (paNoError, w2)
          ∧ w2.mem stream = 1 ∧ w2.mem stream ≠ 0
          ∧ ∀ a, a ≠ stream → w2.mem a = w.mem a)
      ∧ Pa_OpenStream w stream inP outP sr fpb fl 0 ud
          = Pa_OpenStream w stream inP2 outP2 sr2 fpb2 fl2 0 ud2 := by
  refine ⟨⟨{ w with mem := fun a => if a = stream then 1 else w.mem a }, ?_, ?_, ?_, ?_⟩, ?_⟩
  · simp [ Pa_OpenStream, hstream]
  · simp
  · simp
  · intro a ha
    simp [ha]
  · simp [ Pa_OpenStream]

theorem c2_witness :
    (5 : Nat) ≠ 0
      ∧ ((∃ w2 : World,
            Pa_OpenStream ⟨fun _ => 7⟩ 5 11 12 48000 64 2 0 9
                = Except.ok (paNoError, w2)
              ∧ w2.mem 5 = 1 ∧ w2.mem 5 ≠ 0
              ∧ ∀ a, a ≠ 5 → w2.mem a = (⟨fun _ => 7⟩ : World).mem a)
          ∧ Pa_OpenStream ⟨fun _ => 7⟩ 5 11 12 48000 64 2 0 9
              = Pa_OpenStream ⟨fun _ => 7⟩ 5 0 0 44100 256 0 0 0) :=
  ⟨by decide,
   c2_openStream_null_callback_succeeds ⟨fun _ => 7⟩ 5 11 12 48000 64 2 9 0 0 44100 256 0 0 (by decide)⟩

/-- C3: Pa_GetDeviceInfo returns a non-null descriptor with 2 input and 0
output channels and default sample rate 44100 for index 0, and a non-null
descriptor with 0 input and 2 output channels and default sample rate
44100 for index 1. -/
theorem c3_getDeviceInfo_fixed_devices (w : World) :
    (∃ d : PaDeviceInfo,
        ( Pa_GetDeviceInfo w 0).1 = some d
          ∧ d.maxInputChannels = 2 ∧ d.maxOutputChannels = 0
          ∧ d.defaultSampleRate = 44100)
      ∧ (∃ d : PaDeviceInfo,
          ( Pa_GetDeviceInfo w 1).1 = some d
            ∧ d.maxInputChannels = 0 ∧ d.maxOutputChannels = 2
            ∧ d.defaultSampleRate = 44100) := by
  refine ⟨⟨inputDevice, ?_, rfl, rfl, rfl⟩, ⟨outputDevice, ?_, rfl, rfl, rfl⟩⟩
  · simp [ Pa_GetDeviceInfo]
  · simp [ Pa_GetDeviceInfo]

/-- C4: for every device index other than 0 and 1 (negative indices
included) Pa_GetDeviceInfo returns NULL (none), never a fabricated
descriptor; and this is the only error path in the component besides the
Open Stream callback rejection: every other operation unconditionally
reports success. -/
theorem c4_getDeviceInfo_invalid_index_null
    (w : World) (i : Int) (h0 : i ≠ 0) (h1 : i ≠ 1) :
    ( Pa_GetDeviceInfo w i).1 = none
      ∧ ( Pa_Initialize w).1 = paNoError
      ∧ ( Pa_Terminate w).1 = paNoError
      ∧ (∀ s, ( Pa_CloseStream w s).1 = paNoError)
      ∧ (∀ s, ( Pa_StartStream w s).1 = paNoError)
      ∧ (∀ s, ( Pa_StopStream w s).1 = paNoError)
      ∧ (∀ s, ( Pa_AbortStream w s).1 = paNoError)
      ∧ (∀ s b f, ( Pa_ReadStream w s b f).1 = paNoError)
      ∧ (∀ s b f, ( Pa_WriteStream w s b f).1 = paNoError) := by
  refine ⟨?_, rfl, rfl, fun s => rfl, fun s => rfl, fun s => rfl, fun s => rfl,
    fun s b f => rfl, fun s b f => rfl⟩
  simp [ Pa_GetDeviceInfo, h0, h1]

theorem c4_witness :
    (-3 : Int) ≠ 0 ∧ (-3 : Int) ≠ 1
      ∧ (( Pa_GetDeviceInfo ⟨fun _ => 0⟩ (-3)).1 = none
          ∧ ( Pa_Initialize ⟨fun _ => 0⟩).1 = paNoError
          ∧ ( Pa_Terminate ⟨fun _ => 0⟩).1 = paNoError
          ∧ (∀ s, ( Pa_CloseStream ⟨fun _ => 0⟩ s).1 = paNoError)
          ∧ (∀ s, ( Pa_StartStream ⟨fun _ => 0⟩ s).1 = paNoError)
          ∧ (∀ s, ( Pa_StopStream ⟨fun _ => 0⟩ s).1 = paNoError)
          ∧ (∀ s, ( Pa_AbortStream ⟨fun _ => 0⟩ s).1 = paNoError)
          ∧ (∀ s b f, ( Pa_ReadStream ⟨fun _ => 0⟩ s b f).1 = paNoError)
          ∧ (∀ s b f, ( Pa_WriteStream ⟨fun _ => 0⟩ s b f).1 = paNoError)) :=
  ⟨by decide, by decide,
   c4_getDeviceInfo_invalid_index_null ⟨fun _ => 0⟩ (-3) (by decide) (by decide)⟩

/-- C5: Pa_GetDeviceCount returns the constant 2 after any prior sequence
of operations, from any starting world. -/
theorem c5_deviceCount_always_two (w : World) (tr : List PaCall) :
    ( Pa_GetDeviceCount (runTrace w tr)).1 = 2 := rfl

/-- C6: after any prior call sequence and for every stream handle value,
Pa_IsStreamStopped returns 1 (true, nonzero) and Pa_IsStreamActive
returns 0 (false): a stream is always reported stopped and never
active. -/
theorem c6_always_stopped_never_active
    (w : World) (tr : List PaCall) (s : Nat) :
    ( Pa_IsStreamStopped (runTrace w tr) s).1 = 1
      ∧ ( Pa_IsStreamStopped (runTrace w tr) s).1 ≠ 0
      ∧ ( Pa_IsStreamActive (runTrace w tr) s).1 = 0 := by
  refine ⟨rfl, ?_, rfl⟩
  simp [ Pa_IsStreamStopped]

/-- C7: for every stream handle, buffer and frame count (zero included),
Pa_ReadStream and Pa_WriteStream return paNoError and leave all of the
caller memory, in particular the supplied buffer, unchanged; the same
holds at frame count zero explicitly. -/
theorem c7_read_write_success_no_effect
    (w : World) (stream buffer frames : Nat) :
    Pa_ReadStream w stream buffer frames = (paNoError, w)
      ∧ Pa_WriteStream w stream buffer frames = (paNoError, w)
      ∧ ( Pa_ReadStream w stream buffer frames).2.mem = w.mem
      ∧ ( Pa_WriteStream w stream buffer frames).2.mem = w.mem
      ∧ Pa_ReadStream w stream buffer 0 = (paNoError, w)
      ∧ Pa_WriteStream w stream buffer 0 = (paNoError, w) :=
  ⟨rfl, rfl, rfl, rfl, rfl, rfl⟩

/-- C8: Pa_Initialize and Pa_Terminate always return the success code
with no effect on the world, and any number of repetitions of
Initialize followed immediately by Terminate returns success at every
step and leaves the world exactly as it started. -/
theorem c8_init_term_idempotent (n : Nat) (w : World) :
    Pa_Initialize w = (paNoError, w)
      ∧ Pa_Terminate w = (paNoError, w)
      ∧ (repInitTerm n w).2 = w
      ∧ ∀ p ∈ (repInitTerm n w).1, p = (paNoError, paNoError) := by
  refine ⟨rfl, rfl, ?_, ?_⟩
  · induction n with
    | zero => rfl
    | succ k ih => simpa [repInitTerm, Pa_Initialize, Pa_Terminate] using ih
  · induction n with
    | zero => intro p hp; simp [repInitTerm] at hp
    | succ k ih =>
        intro p hp
        simp [repInitTerm, Pa_Initialize, Pa_Terminate] at hp
        rcases hp with h | h
        · simp [h]
        · exact ih p h

/-- C9: when Pa_OpenStream fails because of a non-null streamCallback, it
returns before writing through the stream output pointer: the returned
world is the input world, so the memory at the output pointer retains
the value it held before the call. -/
theorem c9_failed_open_preserves_memory
    (w : World) (stream inP outP : Nat) (sr : Rat) (fpb fl cb ud : Nat)
    (hcb : cb ≠ 0) :
    ( Pa_OpenStream w stream inP outP sr fpb fl cb ud).map (fun r => r.2.mem stream)
        = Except.ok (w.mem stream)
      ∧ ( Pa_OpenStream w stream inP outP sr fpb fl cb ud).map (fun r => r.2)
          = Except.ok w := by
  constructor
  · simp [ Pa_OpenStream, hcb, Except.map]
  · simp [ Pa_OpenStream, hcb, Except.map]

theorem c9_witness :
    (2 : Nat) ≠ 0
      ∧ (( Pa_OpenStream ⟨fun _ => 42⟩ 8 0 0 44100 128 0 2 0).map (fun r => r.2.mem 8)
            = Except.ok ((⟨fun _ => 42⟩ : World).mem 8)
          ∧ ( Pa_OpenStream ⟨fun _ => 42⟩ 8 0 0 44100 128 0 2 0).map (fun r => r.2)
              = Except.ok (⟨fun _ => 42⟩ : World)) :=
  ⟨by decide, c9_failed_open_preserves_memory ⟨fun _ => 42⟩ 8 0 0 44100 128 0 2 0 (by decide)⟩

/-- C10: on the success path (null streamCallback) Pa_OpenStream
dereferences the stream output pointer unconditionally, with no null
check guarding the store: the call has defined behavior exactly when the
output pointer is non-null, in which case it stores the sentinel 1
there; with a null output pointer the store is undefined behavior. -/
theorem c10_openStream_unguarded_store
    (w : World) (stream inP outP : Nat) (sr : Rat) (fpb fl ud : Nat) :
    ( Pa_OpenStream w stream inP outP sr fpb fl 0 ud = Except.error () ↔ stream = 0)
      ∧ (stream ≠ 0 →
          ∃ w2 : World,
            Pa_OpenStream w stream inP outP sr fpb fl 0 ud
                = Except.ok (paNoError, w2)
              ∧ w2.mem stream = 1) := by
  constructor
  · constructor
    · intro h
      by_contra hs
      simp [ Pa_OpenStream, hs] at h
    · intro h
      simp [ Pa_OpenStream, h]
  · intro hs
    refine ⟨{ w with mem := fun a => if a = stream then 1 else w.mem a }, ?_, ?_⟩
    · simp [ Pa_OpenStream, hs]
    · simp

theorem c10_witness :
    ( Pa_OpenStream ⟨fun _ => 0⟩ 0 0 0 44100 256 0 0 0 = Except.error () ↔ (0 : Nat) = 0)
      ∧ ((0 : Nat) ≠ 0 →
          ∃ w2 : World,
            Pa_OpenStream ⟨fun _ => 0⟩ 0 0 0 44100 256 0 0 0
                = Except.ok (paNoError, w2)
              ∧ w2.mem 0 = 1) :=
  c10_openStream_unguarded_store ⟨fun _ => 0⟩ 0 0 0 44100 256 0 0
